import Mathlib

/-!
# Verification of the graphics.py scene layer

Shallow embedding of the core of `graphics.py` (Zelle graphics library with
DJC/SN/BB/Niss extensions): the coordinate transform, the scene-object
lifecycle (draw / undraw / redraw / setCoords), the per-shape configuration
dictionaries, the rotatable polygon, and the window event queries.

Conventions of the embedding:
* Python floats are modelled as rationals (ℚ); `int(q)` is truncation toward
  zero (`ratTrunc`), `q1 % q2` for positive `q2` is `pyMod`.
* A raised `GraphicsError` (or `ValueError` / `ZeroDivisionError`) is an
  `Except.error` carrying a `GErr` constructor; each constructor corresponds
  to one raise site (its message string is recorded in a comment).
* The mutable heap is a `GState`: a map from object ids to `GraphicsObject`
  records (fields `__window`, `__id`, geometry) and from window ids to
  `GraphWin` records (fields `items`, `closed`, `trans`, pixel sizes,
  mouse / key event state).  Tk canvas-item creation is modelled by a
  per-window fresh-handle counter `nextHandle`: each `_draw` call returns the
  next counter value, exactly as Tk hands out fresh item ids.
* Render pumps (`_root.update()`, `self.update()`) do not change any state
  that the embedding tracks, so they are omitted where they occur.
-/

/-- Error classes of the source, one constructor per raise site. -/
inductive GErr where
  /-- `GraphicsError(OBJ_ALREADY_DRAWN)`, message "Object currently drawn". -/
  | alreadyDrawn
  /-- `GraphicsError` raised by `draw` on a closed window. -/
  | drawClosedWindow
  /-- `GraphicsError(UNSUPPORTED_METHOD)` from `_reconfig`. -/
  | unsupportedOption
  /-- `GraphicsError(BAD_OPTION)`, message "Illegal option value". -/
  | badOption
  /-- `GraphicsError` raised by `checkMouse` on a closed window. -/
  | checkMouseClosed
  /-- `GraphicsError` raised by `checkKey` on a closed window. -/
  | checkKeyClosed
  /-- `ValueError` from `list.remove` in `GraphWin.delItem`. -/
  | valueError
  /-- `ZeroDivisionError` from `Transform.__init__` when `w` or `h` is 1. -/
  | zeroDivision
deriving DecidableEq, Repr

/-- Python `int(q)`: truncation toward zero. -/
def ratTrunc (q : ℚ) : ℤ :=
  if 0 ≤ q then ⌊q⌋ else ⌈q⌉

/-- Python `a % b` for rationals (result has the sign of `b`; only used with
`b = 360`). -/
def pyMod (a b : ℚ) : ℚ :=
  a - b * ⌊a / b⌋

/-- `Point`: world coordinates, value-like (the source clones on every read). -/
structure Point where
  x : ℚ
  y : ℚ
deriving DecidableEq, Repr

/-! ## Transform (`class Transform`) -/

/-- State of a constructed `Transform`: fields `xbase`, `ybase`, `xscale`,
`yscale` as set by `Transform.__init__`. -/
structure Transform where
  xbase : ℚ
  ybase : ℚ
  xscale : ℚ
  yscale : ℚ
deriving DecidableEq, Repr

/-- `Transform.__init__(w, h, xlow, ylow, xhigh, yhigh)`:
`xscale = (xhigh-xlow)/float(w-1)`, `yscale = (yhigh-ylow)/float(h-1)`.
When `w = 1` or `h = 1` the float division is by `0.0` and Python raises
`ZeroDivisionError`. -/
def Transform.make (w h : ℕ) (xlow ylow xhigh yhigh : ℚ) : Except GErr Transform :=
  if w = 1 ∨ h = 1 then .error .zeroDivision
  else .ok { xbase := xlow
             ybase := yhigh
             xscale := (xhigh - xlow) / ((w : ℚ) - 1)
             yscale := (yhigh - ylow) / ((h : ℚ) - 1) }

/-- `Transform.screen(x, y)`: `xs = (x-xbase)/xscale`, `ys = (ybase-y)/yscale`,
each mapped through `int(· + 0.5)`.  (For `xscale = 0` the source raises
`ZeroDivisionError`; every theorem below that uses `screen` carries hypotheses
keeping the scales nonzero.) -/
def Transform.screen (t : Transform) (x y : ℚ) : ℤ × ℤ :=
  let xs := (x - t.xbase) / t.xscale
  let ys := (t.ybase - y) / t.yscale
  (ratTrunc (xs + 1/2), ratTrunc (ys + 1/2))

/-- `Transform.world(xs, ys)`: the affine map
`(xs*xscale + xbase, ybase - ys*yscale)`. -/
def Transform.world (t : Transform) (xs ys : ℚ) : ℚ × ℚ :=
  (xs * t.xscale + t.xbase, t.ybase - ys * t.yscale)

/-! ## Configuration (`DEFAULT_CONFIG`, `GraphicsObject.__config`) -/

/-- Values stored in a config dictionary (strings, ints, the font triple,
booleans). -/
inductive OptVal where
  | s (v : String)
  | n (v : ℤ)
  | b (v : Bool)
  | font (face : String) (size : ℤ) (style : String)
deriving DecidableEq, Repr

/-- A config dictionary: partial map from option names to values. -/
def Config : Type := String → Option OptVal

/-- `DEFAULT_CONFIG` of the source ("#%02x%02x%02x" % (0,0,0) is "#000000"). -/
def DEFAULT_CONFIG : Config := fun k =>
  if k = "fill" then some (.s "")
  else if k = "activefill" then some (.s "")
  else if k = "outline" then some (.s "#000000")
  else if k = "width" then some (.n 1)
  else if k = "arrow" then some (.s "none")
  else if k = "text" then some (.s "")
  else if k = "justify" then some (.s "center")
  else if k = "font" then some (.font "helvetica" 12 "normal")
  else if k = "smooth" then some (.b false)
  else none

/-- `GraphicsObject.__init__`: `{key: DEFAULT_CONFIG[key] for key in options
if key in DEFAULT_CONFIG.keys()}`. -/
def mkConfig (options : List String) : Config := fun k =>
  if k ∈ options then DEFAULT_CONFIG k else none

/-- `GraphicsObject._reconfig(option, setting)`: raises
`GraphicsError(UNSUPPORTED_METHOD)` if `option` is not a key of the config
dictionary, else updates it in place (the push to an attached native handle
and the autoflush pump touch no tracked state). -/
def reconfig (cfg : Config) (option : String) (setting : OptVal) : Except GErr Config :=
  if (cfg option).isSome then
    .ok (fun k => if k = option then some setting else cfg k)
  else .error .unsupportedOption

/-- Options declared by `_BBox.__init__` default, used by `Rectangle`. -/
def Rectangle.options : List String := ["outline", "width", "fill", "activefill"]

/-- Options declared by `Line.__init__`. -/
def Line.options : List String := ["arrow", "fill", "width"]

/-- `Line.arrow` setter: rejects values outside {first, last, both, none} with
`GraphicsError(BAD_OPTION)` before `_reconfig("arrow", option)` runs. -/
def Line.arrowSet (cfg : Config) (option : String) : Except GErr Config :=
  if option ∉ ["first", "last", "both", "none"] then .error .badOption
  else reconfig cfg "arrow" (.s option)

/-- `Line.arrow` getter: `self.config["arrow"]`. -/
def Line.arrowGet (cfg : Config) : Option OptVal := cfg "arrow"

/-! ## Windows, objects, and the lifecycle state -/

/-- State of one `GraphWin`: registry `items` (ordered list of object ids),
`closed`, `trans`, pixel sizes, `autoflush`, the Tk canvas-item id counter,
and the event state touched by `checkMouse` / `checkKey`. -/
structure GraphWin where
  items : List ℕ
  closed : Bool
  trans : Option Transform
  width : ℕ
  height : ℕ
  autoflush : Bool
  nextHandle : ℕ
  mouseX : Option ℚ
  mouseY : Option ℚ
  lastKey : String

/-- State of one `GraphicsObject`: `self.__window`, `self.__id`, and its
world-space geometry (a vertex list; `_draw` only reads it). -/
structure GraphicsObject where
  window : Option ℕ
  id : Option ℕ
  geom : List Point

/-- The heap: object and window stores. -/
structure GState where
  objs : ℕ → GraphicsObject
  wins : ℕ → GraphWin

/-- Truthiness test `self.__window and not self.__window.isClosed()`. -/
def attachedToOpen (st : GState) (s : ℕ) : Bool :=
  match (st.objs s).window with
  | some w => !(st.wins w).closed
  | none => false

/-- `GraphicsObject.draw(graphwin)`: raise `OBJ_ALREADY_DRAWN` if attached to
an open window; raise if `graphwin` is closed; else `self.__window = graphwin`,
`self.__id = self._draw(...)` (a fresh canvas item id), `graphwin.addItem(self)`
(append to the registry), and pump if autoflush. -/
def GraphicsObject.draw (s w : ℕ) (st : GState) : Except GErr GState :=
  if attachedToOpen st s then .error .alreadyDrawn
  else if (st.wins w).closed then .error .drawClosedWindow
  else
    let win := st.wins w
    let h := win.nextHandle
    .ok { st with
          objs := fun o => if o = s then { st.objs o with window := some w, id := some h }
                           else st.objs o
          wins := fun v => if v = w then { win with items := win.items ++ [s], nextHandle := h + 1 }
                           else st.wins v }

/-- `GraphicsObject.undraw()`: return silently if `self.__window` is `None`;
if the window is still open, delete the canvas item and `delItem(self)`
(Python `list.remove`, which raises `ValueError` when the object is absent);
in every non-raising path finish with `self.__window = None; self.__id = None`. -/
def GraphicsObject.undraw (s : ℕ) (st : GState) : Except GErr GState :=
  match (st.objs s).window with
  | none => .ok st
  | some w =>
    let clearObj : ℕ → GraphicsObject := fun o =>
      if o = s then { st.objs o with window := none, id := none } else st.objs o
    if !(st.wins w).closed then
      if s ∈ (st.wins w).items then
        .ok { st with
              objs := clearObj
              wins := fun v => if v = w then { st.wins v with items := (st.wins v).items.erase s }
                               else st.wins v }
      else .error .valueError
    else
      .ok { st with objs := clearObj }

/-- Loop body of `GraphWin.redraw`: `for item in self.items[:]:
item.undraw(); item.draw(self)`. -/
def GraphWin.redrawList (w : ℕ) : List ℕ → GState → Except GErr GState
  | [], st => .ok st
  | o :: rest, st =>
    match GraphicsObject.undraw o st with
    | .error e => .error e
    | .ok st1 =>
      match GraphicsObject.draw o w st1 with
      | .error e => .error e
      | .ok st2 => GraphWin.redrawList w rest st2

/-- `GraphWin.redraw()`: iterate over a copy of the registry, then
`self.update()` (a render pump, no tracked state). -/
def GraphWin.redraw (w : ℕ) (st : GState) : Except GErr GState :=
  GraphWin.redrawList w (st.wins w).items st

/-- `GraphWin.setCoords(x1, y1, x2, y2)`:
`self.trans = Transform(self.width, self.height, x1, y1, x2, y2)` followed by
`self.redraw()`. -/
def GraphWin.setCoords (w : ℕ) (x1 y1 x2 y2 : ℚ) (st : GState) : Except GErr GState :=
  match Transform.make (st.wins w).width (st.wins w).height x1 y1 x2 y2 with
  | .error e => .error e
  | .ok t =>
    GraphWin.redraw w
      { st with wins := fun v => if v = w then { st.wins w with trans := some t } else st.wins v }

/-! ## Window queries and per-shape projections -/

/-- `GraphWin.toWorld`: through the transform if present, else identity. -/
def GraphWin.toWorld (win : GraphWin) (x y : ℚ) : ℚ × ℚ :=
  match win.trans with
  | some t => t.world x y
  | none => (x, y)

/-- `GraphWin.toScreen`: through the transform if present (returning the
integer pixel pair), else the unconverted input. -/
def GraphWin.toScreen (trans : Option Transform) (x y : ℚ) : ℚ × ℚ :=
  match trans with
  | some t =>
    let p := t.screen x y
    ((p.1 : ℚ), (p.2 : ℚ))
  | none => (x, y)

/-- `GraphWin.checkMouse()`: raises on a closed window; else (after an
optional pump) returns and clears the stored click converted to world
coordinates, or `None`. -/
def GraphWin.checkMouse (win : GraphWin) : Except GErr (Option (ℚ × ℚ) × GraphWin) :=
  if win.closed then .error .checkMouseClosed
  else
    match win.mouseX, win.mouseY with
    | some mx, some my =>
      .ok (some (win.toWorld mx my), { win with mouseX := none, mouseY := none })
    | _, _ => .ok (none, win)

/-- `GraphWin.checkKey()`: raises on a closed window; else returns
`self.lastKey` without clearing it. -/
def GraphWin.checkKey (win : GraphWin) : Except GErr (String × GraphWin) :=
  if win.closed then .error .checkKeyClosed
  else .ok (win.lastKey, win)

/-- Geometry of a `Rectangle` (`_BBox`): two opposite corner points. -/
structure Rectangle where
  point1 : Point
  point2 : Point
deriving DecidableEq, Repr

/-- The pixel arguments `Rectangle._draw` passes to `create_rectangle`:
`x1, y1 = window.toScreen(point1.x, point1.y)` but
`x2, y2 = window.toScreen(point2.y, point2.y)` — the source passes
`point2.y` for both components of the second corner. -/
def Rectangle.drawCoords (trans : Option Transform) (r : Rectangle) : (ℚ × ℚ) × (ℚ × ℚ) :=
  let p1 := r.point1
  let p2 := r.point2
  (GraphWin.toScreen trans p1.x p1.y, GraphWin.toScreen trans p2.y p2.y)

/-! ## RotatablePolygon

`Polygon` stores `self.__points`; the `points` property returns
`list(map(Point.clone, self.__points))` — fresh clones on every read. -/

/-- State of a `RotatablePolygon`: the stored vertex list `self.__points`,
the cumulative angle `self.__theta`, the original vertices
`self.__orig_points`, and `self.__center`. -/
structure RotatablePolygon where
  points : List Point
  theta : ℚ
  origPoints : List Point
  center : Point

/-- `RotatablePolygon.rotate(degrees, about)`.  `cosDeg`/`sinDeg` abstract
`math.cos((θ * math.pi) / 180)` and `math.sin((θ * math.pi) / 180)` as
functions of the cumulative angle θ in degrees.  The loop body computes its
new positions from `self.__orig_points` (with `about.x` used for both the x
and the y offset, as in the source) and then calls `.move` on
`self.points[i]` — but `points` is the cloning property, so every `.move`
lands on a throwaway clone and the stored vertex list is never written; the
trailing `self.find_centroid()` result is likewise discarded.  The list of
moved clones is computed here and dropped, exactly as in the source. -/
def RotatablePolygon.rotate (cosDeg sinDeg : ℚ → ℚ) (p : RotatablePolygon)
    (degrees : ℚ) (about? : Option Point) : RotatablePolygon :=
  let about := about?.getD p.center
  let theta := pyMod (p.theta + degrees) 360
  if degrees ≠ 0 then
    let _movedClones : List Point :=
      (List.range p.origPoints.length).map (fun i =>
        let op := p.origPoints.getD i ⟨0, 0⟩
        let cp := p.points.getD i ⟨0, 0⟩
        let origXDiff := op.x - about.x
        let origYDiff := op.y - about.x
        let newx := origXDiff * cosDeg theta + origYDiff * sinDeg theta
        let newy := origYDiff * cosDeg theta - origXDiff * sinDeg theta
        let dx := newx - cp.x
        let dy := newy - cp.y
        ⟨cp.x + (dx + about.x), cp.y + (dy + about.y)⟩)
    { p with theta := theta }
  else
    { p with theta := theta }

/-! ## Sample heaps for concrete instantiations -/

/-- A detached object with a two-vertex geometry. -/
def sampleObj : GraphicsObject := { window := none, id := none, geom := [⟨0, 0⟩, ⟨2, 0⟩] }

/-- An open, empty 600×400 window. -/
def sampleWin : GraphWin :=
  { items := [], closed := false, trans := none, width := 600, height := 400,
    autoflush := true, nextHandle := 0, mouseX := none, mouseY := none, lastKey := "" }

/-- The same window after `close()`. -/
def sampleClosedWin : GraphWin := { sampleWin with closed := true }

/-- Heap with every object detached and every window open and empty. -/
def sampleState : GState := { objs := fun _ => sampleObj, wins := fun _ => sampleWin }

/-- Heap where object 0 is drawn in open window 0 with canvas handle 0. -/
def sampleAttachedState : GState :=
  { objs := fun o => if o = 0 then { sampleObj with window := some 0, id := some 0 } else sampleObj,
    wins := fun v => if v = 0 then { sampleWin with items := [0], nextHandle := 1 } else sampleWin }

/-- Heap in which every window is closed. -/
def sampleClosedState : GState :=
  { objs := fun _ => sampleObj, wins := fun _ => sampleClosedWin }

/-! ## Theorems -/

/-- C10: on a window whose closed flag is set, the non-blocking queries
`checkMouse()` and `checkKey()` raise a `GraphicsError` rather than returning
the no-event value (`None` / the empty string), and no pending event is
consumed (the error is raised before the event state is read). -/
theorem C10_check_queries_raise_on_closed_window :
    ∀ win : GraphWin, win.closed = true →
    GraphWin.checkMouse win = .error .checkMouseClosed ∧
    GraphWin.checkKey win = .error .checkKeyClosed := by
  intro win h
  constructor <;> simp [GraphWin.checkMouse, GraphWin.checkKey, h]

/-- Witness for C10 at a concrete closed window. -/
theorem C10_witness :
    sampleClosedWin.closed = true ∧
    (GraphWin.checkMouse sampleClosedWin = .error .checkMouseClosed ∧
     GraphWin.checkKey sampleClosedWin = .error .checkKeyClosed) :=
  ⟨rfl, C10_check_queries_raise_on_closed_window sampleClosedWin rfl⟩

/-- C4 (code bug): on the square `Rectangle(Point(0,0), Point(2,5))` over a
window without a transform, `Rectangle._draw` hands the native primitive the
second corner `toScreen(point2.y, point2.y) = (5,5)`, not the claimed
`toScreen(point2.x, point2.y) = (2,5)`. -/
theorem C4_rectangle_draw_passes_point2_y_twice :
    Rectangle.drawCoords none ⟨⟨0, 0⟩, ⟨2, 5⟩⟩ = ((0, 0), (5, 5)) ∧
    GraphWin.toScreen none 2 5 = (2, 5) ∧
    ((5, 5) : ℚ × ℚ) ≠ ((2, 5) : ℚ × ℚ) := by
  refine ⟨rfl, rfl, by decide⟩

/-- C3 (code bug): rotating the square with vertices (0,0),(2,0),(2,2),(0,2)
by 90° about (1,1) leaves every stored vertex unchanged — the loop moves the
throwaway clones produced by the `points` property — even though the angle
does advance to 90.  This holds for every trigonometry oracle, so no choice
of `cos`/`sin` can make the vertices move. -/
theorem C3_rotate_never_moves_stored_vertices :
    ∀ cosDeg sinDeg : ℚ → ℚ,
    (RotatablePolygon.rotate cosDeg sinDeg
        ⟨[⟨0, 0⟩, ⟨2, 0⟩, ⟨2, 2⟩, ⟨0, 2⟩], 0, [⟨0, 0⟩, ⟨2, 0⟩, ⟨2, 2⟩, ⟨0, 2⟩], ⟨1, 1⟩⟩
        90 (some ⟨1, 1⟩)).points = [⟨0, 0⟩, ⟨2, 0⟩, ⟨2, 2⟩, ⟨0, 2⟩] ∧
    (RotatablePolygon.rotate cosDeg sinDeg
        ⟨[⟨0, 0⟩, ⟨2, 0⟩, ⟨2, 2⟩, ⟨0, 2⟩], 0, [⟨0, 0⟩, ⟨2, 0⟩, ⟨2, 2⟩, ⟨0, 2⟩], ⟨1, 1⟩⟩
        90 (some ⟨1, 1⟩)).theta = 90 := by
  intro cosDeg sinDeg
  constructor
  · simp [RotatablePolygon.rotate]
  · have hfl : ⌊(0 + 90 : ℚ) / 360⌋ = 0 := by
      rw [Int.floor_eq_iff]
      norm_num
    simp [RotatablePolygon.rotate, pyMod, hfl]
    norm_num

/-- C9: `rotate(360, about=centroid)` leaves every vertex at its pre-rotation
position — in fact exactly, for any rotation amount and any trigonometry
oracle, because the vertex updates only ever reach clones. -/
theorem C9_rotate_360_about_centroid_preserves_vertices :
    ∀ (cosDeg sinDeg : ℚ → ℚ) (p : RotatablePolygon),
    (p.rotate cosDeg sinDeg 360 (some p.center)).points = p.points := by
  intro cosDeg sinDeg p
  unfold RotatablePolygon.rotate
  split <;> rfl

/-- C7: `_reconfig` fails with `UNSUPPORTED_METHOD` exactly when the option is
outside the declared legal set (every declared option of the source shapes is
a `DEFAULT_CONFIG` key, which is the hypothesis); the raise happens before the
config dictionary is written, so a failing call leaves it unchanged.  In
particular "arrow" is rejected on a `Rectangle`. -/
theorem C7_reconfig_fails_iff_option_undeclared :
    ∀ (opts : List String) (o : String) (v : OptVal),
    (∀ k ∈ opts, (DEFAULT_CONFIG k).isSome) →
    ((reconfig (mkConfig opts) o v = .error .unsupportedOption) ↔ o ∉ opts) ∧
    reconfig (mkConfig Rectangle.options) "arrow" v = .error .unsupportedOption := by
  intro opts o v hall
  constructor
  · unfold reconfig mkConfig
    by_cases ho : o ∈ opts
    · simp [ho, hall o ho]
    · simp [ho]
  · have hm : "arrow" ∉ Rectangle.options := by decide
    simp [reconfig, mkConfig, hm]

/-- Witness for C7: the `Rectangle` option set, option "arrow", value
"first". -/
theorem C7_witness :
    (∀ k ∈ Rectangle.options, (DEFAULT_CONFIG k).isSome) ∧
    (((reconfig (mkConfig Rectangle.options) "arrow" (.s "first") =
          .error .unsupportedOption) ↔ "arrow" ∉ Rectangle.options) ∧
      reconfig (mkConfig Rectangle.options) "arrow" (.s "first") =
        .error .unsupportedOption) :=
  ⟨by decide,
   C7_reconfig_fails_iff_option_undeclared Rectangle.options "arrow" (.s "first") (by decide)⟩

/-- C8: for any `Line` config (the "arrow" key is always present — the
hypothesis), assigning an arrow value outside {first, last, both, none}
fails with `BAD_OPTION` before the stored option is touched, while assigning
a member of that set succeeds and is subsequently read back by the getter. -/
theorem C8_line_arrow_option :
    ∀ cfg : Config, (cfg "arrow").isSome →
    (∀ v : String, v ∉ (["first", "last", "both", "none"] : List String) →
      Line.arrowSet cfg v = .error .badOption) ∧
    (∀ v ∈ (["first", "last", "both", "none"] : List String),
      ∃ cfg2, Line.arrowSet cfg v = .ok cfg2 ∧ Line.arrowGet cfg2 = some (.s v)) := by
  intro cfg h
  constructor
  · intro v hv
    simp [Line.arrowSet, hv]
  · intro v hv
    refine ⟨fun k => if k = "arrow" then some (.s v) else cfg k, ?_, ?_⟩
    · simp [Line.arrowSet, hv, reconfig, h]
    · simp [Line.arrowGet]

/-- Witness for C8 at the config a fresh `Line` is constructed with, checking
the rejected value "up" and the accepted value "both" from the claim. -/
theorem C8_witness :
    ((mkConfig Line.options) "arrow").isSome ∧
    Line.arrowSet (mkConfig Line.options) "up" = .error .badOption ∧
    (∃ cfg2, Line.arrowSet (mkConfig Line.options) "both" = .ok cfg2 ∧
      Line.arrowGet cfg2 = some (.s "both")) :=
  ⟨by decide,
   (C8_line_arrow_option (mkConfig Line.options) (by decide)).1 "up" (by decide),
   (C8_line_arrow_option (mkConfig Line.options) (by decide)).2 "both" (by decide)⟩

/-- `int(z + 0.5)` on an exact integer `z` gives `z` for `z ≥ 0` and `z + 1`
for `z < 0` (truncation toward zero), hence stays within 1 of `z`. -/
lemma ratTrunc_intCast_add_half (z : ℤ) : |ratTrunc ((z : ℚ) + 1/2) - z| ≤ 1 := by
  unfold ratTrunc
  by_cases h : (0 : ℚ) ≤ (z : ℚ) + 1/2
  · rw [if_pos h]
    have hz : ⌊(z : ℚ) + 1/2⌋ = z := by
      rw [Int.floor_eq_iff]
      constructor
      · linarith
      · linarith
    rw [hz]
    simp
  · rw [if_neg h]
    have hz : ⌈(z : ℚ) + 1/2⌉ = z + 1 := by
      rw [Int.ceil_eq_iff]
      constructor
      · push_cast; linarith
      · push_cast; linarith
    rw [hz]
    simp

/-- `int(q + 0.5)` lands strictly within 3/2 of `q`: within 1/2 when
`q + 1/2 ≥ 0` (round half up), within [1/2, 3/2) when `q + 1/2 < 0`
(truncation toward zero rounds upward there). -/
lemma ratTrunc_add_half_near (q : ℚ) : |(ratTrunc (q + 1/2) : ℚ) - q| < 3/2 := by
  unfold ratTrunc
  by_cases h : (0 : ℚ) ≤ q + 1/2
  · rw [if_pos h]
    have h1 := Int.floor_le (q + 1/2)
    have h2 := Int.lt_floor_add_one (q + 1/2)
    rw [abs_lt]
    constructor <;> linarith
  · rw [if_neg h]
    have h1 := Int.le_ceil (q + 1/2)
    have h2 := Int.ceil_lt_add_one (q + 1/2)
    rw [abs_lt]
    constructor <;> linarith

/-- C5 (amended): for a transform built from pixel dimensions `w, h > 1` and a
nondegenerate world span, the pixel round trip `screen(world(xs, ys))` is
within 1 pixel per component, and the world round trip `world(screen(x, y))`
is within 3/2 of a scale unit per component (the bound of one scale unit in
the original claim fails for points projecting to negative screen
coordinates, because `int()` truncates toward zero). -/
theorem C5_transform_roundtrip :
    ∀ (w h : ℕ) (xlow ylow xhigh yhigh : ℚ) (t : Transform),
    1 < w → 1 < h → xlow ≠ xhigh → ylow ≠ yhigh →
    Transform.make w h xlow ylow xhigh yhigh = .ok t →
    (∀ xs ys : ℤ,
      |(t.screen (t.world xs ys).1 (t.world xs ys).2).1 - xs| ≤ 1 ∧
      |(t.screen (t.world xs ys).1 (t.world xs ys).2).2 - ys| ≤ 1) ∧
    (∀ x y : ℚ,
      |(t.world ((t.screen x y).1 : ℚ) ((t.screen x y).2 : ℚ)).1 - x| < 3/2 * |t.xscale| ∧
      |(t.world ((t.screen x y).1 : ℚ) ((t.screen x y).2 : ℚ)).2 - y| < 3/2 * |t.yscale|) := by
  intro w h xlow ylow xhigh yhigh t hw hh hx hy hmk
  have hw1 : w ≠ 1 := by omega
  have hh1 : h ≠ 1 := by omega
  rw [Transform.make, if_neg (by simp [hw1, hh1])] at hmk
  injection hmk with hmk
  have hwq : ((w : ℚ) - 1) ≠ 0 := by
    have : (1 : ℚ) < (w : ℚ) := by exact_mod_cast hw
    linarith
  have hhq : ((h : ℚ) - 1) ≠ 0 := by
    have : (1 : ℚ) < (h : ℚ) := by exact_mod_cast hh
    linarith
  have hxs : t.xscale ≠ 0 := by
    rw [← hmk]
    exact div_ne_zero (sub_ne_zero_of_ne (Ne.symm hx)) hwq
  have hys : t.yscale ≠ 0 := by
    rw [← hmk]
    exact div_ne_zero (sub_ne_zero_of_ne (Ne.symm hy)) hhq
  constructor
  · intro xs ys
    constructor
    · have e1 : ((xs : ℚ) * t.xscale + t.xbase - t.xbase) / t.xscale = (xs : ℚ) := by
        field_simp
      simp only [Transform.world, Transform.screen, e1]
      exact ratTrunc_intCast_add_half xs
    · have e2 : (t.ybase - (t.ybase - (ys : ℚ) * t.yscale)) / t.yscale = (ys : ℚ) := by
        field_simp
      simp only [Transform.world, Transform.screen, e2]
      exact ratTrunc_intCast_add_half ys
  · intro x y
    constructor
    · have key := ratTrunc_add_half_near ((x - t.xbase) / t.xscale)
      simp only [Transform.world, Transform.screen]
      have e3 : (ratTrunc ((x - t.xbase) / t.xscale + 1/2) : ℚ) * t.xscale + t.xbase - x =
          ((ratTrunc ((x - t.xbase) / t.xscale + 1/2) : ℚ) - (x - t.xbase) / t.xscale) * t.xscale := by
        field_simp
        ring
      rw [e3, abs_mul]
      exact mul_lt_mul_of_pos_right key (abs_pos.mpr hxs)
    · have key := ratTrunc_add_half_near ((t.ybase - y) / t.yscale)
      simp only [Transform.world, Transform.screen]
      have e4 : t.ybase - (ratTrunc ((t.ybase - y) / t.yscale + 1/2) : ℚ) * t.yscale - y =
          (-((ratTrunc ((t.ybase - y) / t.yscale + 1/2) : ℚ) - (t.ybase - y) / t.yscale)) * t.yscale := by
        field_simp
        ring
      rw [e4, abs_mul, abs_neg]
      exact mul_lt_mul_of_pos_right key (abs_pos.mpr hys)

/-- Witness for C5 at `Transform(3, 3, 0, 0, 10, 10)`, whose scales are 5. -/
theorem C5_witness :
    1 < 3 ∧ 1 < 3 ∧ ((0 : ℚ) ≠ 10) ∧ ((0 : ℚ) ≠ 10) ∧
    Transform.make 3 3 0 0 10 10 = .ok (Transform.mk 0 10 5 5) ∧
    ((∀ xs ys : ℤ,
      |((Transform.mk 0 10 5 5).screen ((Transform.mk 0 10 5 5).world xs ys).1
          ((Transform.mk 0 10 5 5).world xs ys).2).1 - xs| ≤ 1 ∧
      |((Transform.mk 0 10 5 5).screen ((Transform.mk 0 10 5 5).world xs ys).1
          ((Transform.mk 0 10 5 5).world xs ys).2).2 - ys| ≤ 1) ∧
    (∀ x y : ℚ,
      |((Transform.mk 0 10 5 5).world (((Transform.mk 0 10 5 5).screen x y).1 : ℚ)
          (((Transform.mk 0 10 5 5).screen x y).2 : ℚ)).1 - x| <
        3/2 * |(Transform.mk 0 10 5 5).xscale| ∧
      |((Transform.mk 0 10 5 5).world (((Transform.mk 0 10 5 5).screen x y).1 : ℚ)
          (((Transform.mk 0 10 5 5).screen x y).2 : ℚ)).2 - y| <
        3/2 * |(Transform.mk 0 10 5 5).yscale|)) :=
  ⟨by norm_num, by norm_num, by norm_num, by norm_num,
   by rw [Transform.make]; norm_num,
   C5_transform_roundtrip 3 3 0 0 10 10 (Transform.mk 0 10 5 5)
     (by norm_num) (by norm_num) (by norm_num) (by norm_num)
     (by rw [Transform.make]; norm_num)⟩

/-- C5 (counterexample to the original claim): for the transform built by
`Transform(3, 3, 0, 0, 2, 2)` (scales 1), the world point `x = -12/5` maps to
screen coordinate `int(-12/5 + 1/2) = -1` and back to world `-1`, an error of
`7/5`, exceeding one scale unit. -/
theorem C5_counterexample :
    Transform.make 3 3 0 0 2 2 = .ok (Transform.mk 0 2 1 1) ∧
    ¬ |((Transform.mk 0 2 1 1).world
          (((Transform.mk 0 2 1 1).screen (-12/5) 0).1 : ℚ)
          (((Transform.mk 0 2 1 1).screen (-12/5) 0).2 : ℚ)).1 - (-12/5)| ≤
        |(Transform.mk 0 2 1 1).xscale| := by
  constructor
  · rw [Transform.make]; norm_num
  · have hfl : ratTrunc (-(19/10) : ℚ) = -1 := by
      unfold ratTrunc
      rw [if_neg (by norm_num), Int.ceil_eq_iff]
      norm_num
    simp only [Transform.screen, Transform.world]
    norm_num [hfl]
    rw [abs_of_pos]
    norm_num
    norm_num

/-- `draw` on an object attached to an open window raises
`OBJ_ALREADY_DRAWN`. -/
lemma draw_err_alreadyDrawn (st : GState) (s w : ℕ)
    (h1 : attachedToOpen st s = true) :
    GraphicsObject.draw s w st = .error .alreadyDrawn := by
  simp [GraphicsObject.draw, h1]

/-- `draw` into a closed window raises. -/
lemma draw_err_closed (st : GState) (s w : ℕ)
    (h1 : attachedToOpen st s = false) (h2 : (st.wins w).closed = true) :
    GraphicsObject.draw s w st = .error .drawClosedWindow := by
  simp [GraphicsObject.draw, h1, h2]

/-- Successful `draw`: the resulting heap, explicitly. -/
lemma draw_ok_eq (st : GState) (s w : ℕ)
    (h1 : attachedToOpen st s = false) (h2 : (st.wins w).closed = false) :
    GraphicsObject.draw s w st = .ok
      { st with
        objs := fun o => if o = s then
            { st.objs o with window := some w, id := some (st.wins w).nextHandle }
          else st.objs o
        wins := fun v => if v = w then
            { st.wins w with
              items := (st.wins w).items ++ [s]
              nextHandle := (st.wins w).nextHandle + 1 }
          else st.wins v } := by
  simp [GraphicsObject.draw, h1, h2]

/-- `undraw` of a detached object returns the heap unchanged. -/
lemma undraw_detached (st : GState) (s : ℕ) (h : (st.objs s).window = none) :
    GraphicsObject.undraw s st = .ok st := by
  simp [GraphicsObject.undraw, h]

/-- `undraw` of an object attached to an open window that registers it:
the resulting heap, explicitly. -/
lemma undraw_ok_eq (st : GState) (s w : ℕ)
    (h1 : (st.objs s).window = some w) (h2 : (st.wins w).closed = false)
    (h3 : s ∈ (st.wins w).items) :
    GraphicsObject.undraw s st = .ok
      { st with
        objs := fun o => if o = s then { st.objs o with window := none, id := none }
                         else st.objs o
        wins := fun v => if v = w then { st.wins v with items := (st.wins v).items.erase s }
                         else st.wins v } := by
  simp [GraphicsObject.undraw, h1, h2, h3]

/-- C1: for an open window W and a detached, unregistered shape S, `draw(S, W)`
registers S exactly once; a following `undraw(S)` removes it (zero
occurrences) and clears both the window reference and the native handle; a
second `undraw(S)` returns the whole heap unchanged. -/
theorem C1_draw_undraw_registry :
    ∀ (st : GState) (s w : ℕ),
    (st.wins w).closed = false →
    (st.objs s).window = none →
    s ∉ (st.wins w).items →
    ∃ st1 st2,
      GraphicsObject.draw s w st = .ok st1 ∧
      (st1.wins w).items.count s = 1 ∧
      GraphicsObject.undraw s st1 = .ok st2 ∧
      (st2.wins w).items.count s = 0 ∧
      (st2.objs s).window = none ∧
      (st2.objs s).id = none ∧
      GraphicsObject.undraw s st2 = .ok st2 := by
  intro st s w hopen hdet hnot
  have hao : attachedToOpen st s = false := by
    unfold attachedToOpen
    rw [hdet]
  refine ⟨_, _, draw_ok_eq st s w hao hopen, ?_,
    undraw_ok_eq _ s w (by simp) (by simp [hopen]) (by simp), ?_, ?_, ?_, ?_⟩
  · simp [List.count_append, List.count_eq_zero.mpr hnot]
  · simp [List.count_erase_self, List.count_append, List.count_eq_zero.mpr hnot]
  · simp
  · simp
  · exact undraw_detached _ s (by simp)

/-- Witness for C1: drawing object 0 into the open empty window 0. -/
theorem C1_witness :
    (sampleState.wins 0).closed = false ∧
    (sampleState.objs 0).window = none ∧
    (0 : ℕ) ∉ (sampleState.wins 0).items ∧
    (∃ st1 st2,
      GraphicsObject.draw 0 0 sampleState = .ok st1 ∧
      (st1.wins 0).items.count 0 = 1 ∧
      GraphicsObject.undraw 0 st1 = .ok st2 ∧
      (st2.wins 0).items.count 0 = 0 ∧
      (st2.objs 0).window = none ∧
      (st2.objs 0).id = none ∧
      GraphicsObject.undraw 0 st2 = .ok st2) :=
  ⟨rfl, rfl, List.not_mem_nil 0,
   C1_draw_undraw_registry sampleState 0 0 rfl rfl (List.not_mem_nil 0)⟩

/-- C2: `draw(S, W)` raises `OBJ_ALREADY_DRAWN` whenever S is attached to an
open window, raises the closed-window error when S is not so attached and W
is closed (both raises happen before any state is written, so the heap is
untouched), and otherwise attaches S to W, stores the fresh native handle,
appends S to the registry — after which a second `draw` without an
intervening `undraw` raises `OBJ_ALREADY_DRAWN`. -/
theorem C2_draw_preconditions :
    ∀ (st : GState) (s w : ℕ),
    (∀ w2, (st.objs s).window = some w2 → (st.wins w2).closed = false →
      GraphicsObject.draw s w st = .error .alreadyDrawn) ∧
    (attachedToOpen st s = false → (st.wins w).closed = true →
      GraphicsObject.draw s w st = .error .drawClosedWindow) ∧
    (attachedToOpen st s = false → (st.wins w).closed = false →
      ∃ st2, GraphicsObject.draw s w st = .ok st2 ∧
        (st2.objs s).window = some w ∧
        (st2.objs s).id = some (st.wins w).nextHandle ∧
        (st2.wins w).items = (st.wins w).items ++ [s] ∧
        GraphicsObject.draw s w st2 = .error .alreadyDrawn) := by
  intro st s w
  refine ⟨?_, ?_, ?_⟩
  · intro w2 hw2 hopen2
    apply draw_err_alreadyDrawn
    unfold attachedToOpen
    rw [hw2]
    simp [hopen2]
  · exact draw_err_closed st s w
  · intro h1 h2
    refine ⟨_, draw_ok_eq st s w h1 h2, by simp, by simp, by simp, ?_⟩
    apply draw_err_alreadyDrawn
    unfold attachedToOpen
    simp [h2]

/-- Witness for C2: the three draw scenarios at concrete heaps. -/
theorem C2_witness :
    GraphicsObject.draw 0 1 sampleAttachedState = .error .alreadyDrawn ∧
    GraphicsObject.draw 0 0 sampleClosedState = .error .drawClosedWindow ∧
    (∃ st2, GraphicsObject.draw 0 0 sampleState = .ok st2 ∧
      (st2.objs 0).window = some 0 ∧
      (st2.objs 0).id = some (sampleState.wins 0).nextHandle ∧
      (st2.wins 0).items = (sampleState.wins 0).items ++ [0] ∧
      GraphicsObject.draw 0 0 st2 = .error .alreadyDrawn) :=
  ⟨(C2_draw_preconditions sampleAttachedState 0 1).1 0 rfl rfl,
   (C2_draw_preconditions sampleClosedState 0 0).2.1 rfl rfl,
   (C2_draw_preconditions sampleState 0 0).2.2 rfl rfl⟩

/-- Componentwise description of a successful `undraw`. -/
lemma undraw_ok_parts (st : GState) (s w : ℕ)
    (h1 : (st.objs s).window = some w) (h2 : (st.wins w).closed = false)
    (h3 : s ∈ (st.wins w).items) :
    ∃ st1, GraphicsObject.undraw s st = .ok st1 ∧
      st1.wins w = { st.wins w with items := (st.wins w).items.erase s } ∧
      (∀ v, v ≠ w → st1.wins v = st.wins v) ∧
      st1.objs s = { st.objs s with window := none, id := none } ∧
      (∀ o, o ≠ s → st1.objs o = st.objs o) := by
  refine ⟨_, undraw_ok_eq st s w h1 h2 h3, ?_, ?_, ?_, ?_⟩
  · simp
  · intro v hv
    simp [hv]
  · simp
  · intro o ho
    simp [ho]

/-- Componentwise description of a successful `draw`. -/
lemma draw_ok_parts (st : GState) (s w : ℕ)
    (h1 : attachedToOpen st s = false) (h2 : (st.wins w).closed = false) :
    ∃ st1, GraphicsObject.draw s w st = .ok st1 ∧
      st1.wins w = { st.wins w with
                     items := (st.wins w).items ++ [s]
                     nextHandle := (st.wins w).nextHandle + 1 } ∧
      (∀ v, v ≠ w → st1.wins v = st.wins v) ∧
      st1.objs s = { st.objs s with
                     window := some w
                     id := some (st.wins w).nextHandle } ∧
      (∀ o, o ≠ s → st1.objs o = st.objs o) := by
  refine ⟨_, draw_ok_eq st s w h1 h2, ?_, ?_, ?_, ?_⟩
  · simp
  · intro v hv
    simp [hv]
  · simp
  · intro o ho
    simp [ho]

/-- One pass of the `GraphWin.redraw` loop over the pending suffix `l` of the
registry copy: every pending item is undrawn and redrawn exactly once,
receiving consecutive fresh canvas handles, the registry ends as `done ++ l`,
and nothing else in the heap changes. -/
lemma redrawList_ok :
    ∀ (l : List ℕ) (st : GState) (w : ℕ) (done : List ℕ),
    (st.wins w).closed = false →
    (st.wins w).items = l ++ done →
    l.Nodup →
    (∀ o ∈ l, (st.objs o).window = some w) →
    ∃ st2,
      GraphWin.redrawList w l st = .ok st2 ∧
      st2.wins w = { st.wins w with
                     items := done ++ l
                     nextHandle := (st.wins w).nextHandle + l.length } ∧
      (∀ v, v ≠ w → st2.wins v = st.wins v) ∧
      (∀ o, o ∉ l → st2.objs o = st.objs o) ∧
      (∀ o ∈ l, ∃ k, k < l.length ∧
        st2.objs o = { st.objs o with
                       window := some w
                       id := some ((st.wins w).nextHandle + k) }) := by
  intro l
  induction l with
  | nil =>
    intro st w done hopen hitems _ _
    have hd : done = (st.wins w).items := by simpa using hitems.symm
    subst hd
    refine ⟨st, rfl, by simp, fun v _ => rfl, fun o _ => rfl,
      fun o ho => absurd ho (List.not_mem_nil o)⟩
  | cons o rest ih =>
    intro st w done hopen hitems hnodup hatt
    have honotin : o ∉ rest := (List.nodup_cons.mp hnodup).1
    have hrest : rest.Nodup := (List.nodup_cons.mp hnodup).2
    have ho_win : (st.objs o).window = some w := hatt o (List.mem_cons_self o rest)
    have ho_mem : o ∈ (st.wins w).items := by
      rw [hitems]
      exact List.mem_append_left _ (List.mem_cons_self o rest)
    obtain ⟨st1, hund, hw1, hv1, hobj1, hoth1⟩ := undraw_ok_parts st o w ho_win hopen ho_mem
    have h1a : attachedToOpen st1 o = false := by
      unfold attachedToOpen
      rw [hobj1]
    have h1b : (st1.wins w).closed = false := by
      rw [hw1]
      exact hopen
    have h1items : (st1.wins w).items = rest ++ done := by
      rw [hw1]
      simp only [hitems, List.cons_append, List.erase_cons_head]
    have h1nh : (st1.wins w).nextHandle = (st.wins w).nextHandle := by
      rw [hw1]
    obtain ⟨st2, hdrw, hw2, hv2, hobj2, hoth2⟩ := draw_ok_parts st1 o w h1a h1b
    have h2b : (st2.wins w).closed = false := by
      rw [hw2]
      exact h1b
    have h2items : (st2.wins w).items = rest ++ (done ++ [o]) := by
      rw [hw2]
      simp only [h1items, List.append_assoc]
    have h2nh : (st2.wins w).nextHandle = (st.wins w).nextHandle + 1 := by
      rw [hw2]
      simp [h1nh]
    have h2att : ∀ o2 ∈ rest, (st2.objs o2).window = some w := by
      intro o2 ho2
      have hne : o2 ≠ o := fun e => honotin (e ▸ ho2)
      rw [hoth2 o2 hne, hoth1 o2 hne]
      exact hatt o2 (List.mem_cons_of_mem o ho2)
    obtain ⟨st3, hrun, hw3, hv3, hout3, hin3⟩ := ih st2 w (done ++ [o]) h2b h2items hrest h2att
    refine ⟨st3, ?_, ?_, ?_, ?_, ?_⟩
    · simp only [GraphWin.redrawList, hund, hdrw]
      exact hrun
    · rw [hw3, hw2, hw1]
      simp only [hitems, List.cons_append, List.erase_cons_head, List.append_assoc,
        List.length_cons, List.singleton_append]
      congr 1
      omega
    · intro v hv
      rw [hv3 v hv, hv2 v hv, hv1 v hv]
    · intro o2 ho2
      have hne : o2 ≠ o := fun e => ho2 (e ▸ List.mem_cons_self o rest)
      have hnr : o2 ∉ rest := fun h => ho2 (List.mem_cons_of_mem o h)
      rw [hout3 o2 hnr, hoth2 o2 hne, hoth1 o2 hne]
    · intro o2 ho2
      rcases List.mem_cons.mp ho2 with he | hm
      · subst he
        refine ⟨0, by simp, ?_⟩
        rw [hout3 o2 honotin, hobj2, hobj1, h1nh]
        simp
      · obtain ⟨k, hk, heq⟩ := hin3 o2 hm
        have hne : o2 ≠ o := fun e => honotin (e ▸ hm)
        refine ⟨k + 1, by simpa using Nat.succ_lt_succ hk, ?_⟩
        have harith : (st.wins w).nextHandle + 1 + k = (st.wins w).nextHandle + (k + 1) := by
          omega
        rw [heq, hoth2 o2 hne, hoth1 o2 hne, h2nh, harith]

/-- C6: `setCoords(x1, y1, x2, y2)` on an open window W installs a transform
built from W's current pixel dimensions and then redraws each currently
registered item exactly once — its canvas handle is deleted and a fresh one
(one per item, numbered consecutively) created — leaving every item's world
geometry and registration (exactly one occurrence) intact, while objects not
registered in W and other windows are untouched.  The hypotheses are W's
registry invariants: no duplicate registrations, registered objects are
attached to W, and live handles are below the allocation counter. -/
theorem C6_setCoords_redraws_each_item_once :
    ∀ (st : GState) (w : ℕ) (x1 y1 x2 y2 : ℚ),
    (st.wins w).closed = false →
    (st.wins w).width ≠ 1 →
    (st.wins w).height ≠ 1 →
    (st.wins w).items.Nodup →
    (∀ o ∈ (st.wins w).items, (st.objs o).window = some w) →
    (∀ o ∈ (st.wins w).items, ∀ hdl, (st.objs o).id = some hdl →
      hdl < (st.wins w).nextHandle) →
    ∃ st2,
      GraphWin.setCoords w x1 y1 x2 y2 st = .ok st2 ∧
      (st2.wins w).trans = some
        { xbase := x1
          ybase := y2
          xscale := (x2 - x1) / (((st.wins w).width : ℚ) - 1)
          yscale := (y2 - y1) / (((st.wins w).height : ℚ) - 1) } ∧
      (st2.wins w).items = (st.wins w).items ∧
      (st2.wins w).nextHandle = (st.wins w).nextHandle + (st.wins w).items.length ∧
      (∀ o ∈ (st.wins w).items,
        (st2.wins w).items.count o = 1 ∧
        (st2.objs o).geom = (st.objs o).geom ∧
        (st2.objs o).window = some w ∧
        (st2.objs o).id ≠ (st.objs o).id ∧
        ∃ k, k < (st.wins w).items.length ∧
          (st2.objs o).id = some ((st.wins w).nextHandle + k)) ∧
      (∀ o, o ∉ (st.wins w).items → st2.objs o = st.objs o) ∧
      (∀ v, v ≠ w → st2.wins v = st.wins v) := by
  intro st w x1 y1 x2 y2 hopen hwid hhei hnodup hatt hid
  set tdef : Transform :=
    { xbase := x1
      ybase := y2
      xscale := (x2 - x1) / (((st.wins w).width : ℚ) - 1)
      yscale := (y2 - y1) / (((st.wins w).height : ℚ) - 1) } with htdef
  have hmk : Transform.make (st.wins w).width (st.wins w).height x1 y1 x2 y2 = .ok tdef := by
    rw [Transform.make, if_neg (by simp [hwid, hhei])]
  set st1 : GState :=
    { st with wins := fun v => if v = w then { st.wins w with trans := some tdef }
                               else st.wins v } with hst1
  have hitems1 : (st1.wins w).items = (st.wins w).items := by
    rw [hst1]
    simp
  have hobjs1 : ∀ o, st1.objs o = st.objs o := by
    intro o
    rw [hst1]
  have hwin1 : st1.wins w = { st.wins w with trans := some tdef } := by
    rw [hst1]
    simp
  have hnh1 : (st1.wins w).nextHandle = (st.wins w).nextHandle := by
    rw [hwin1]
  obtain ⟨st2, hrun, hw2, hv2, hout2, hin2⟩ :=
    redrawList_ok ((st1.wins w).items) st1 w []
      (by rw [hwin1]; exact hopen)
      (by simp)
      (by rw [hitems1]; exact hnodup)
      (by intro o ho
          rw [hitems1] at ho
          rw [hobjs1 o]
          exact hatt o ho)
  have hitems2 : (st2.wins w).items = (st.wins w).items := by
    rw [hw2]
    simp [hitems1]
  refine ⟨st2, ?_, ?_, hitems2, ?_, ?_, ?_, ?_⟩
  · simp only [GraphWin.setCoords, hmk, GraphWin.redraw, if_true]
    rw [← hst1]
    rwa [hitems1] at hrun
  · rw [hw2, hwin1]
  · rw [hw2, hnh1, hitems1]
  · intro o ho
    obtain ⟨k, hk, heq⟩ := hin2 o (by rwa [hitems1])
    rw [hobjs1 o, hnh1] at heq
    rw [hitems1] at hk
    have hidnew : (st2.objs o).id = some ((st.wins w).nextHandle + k) := by
      rw [heq]
    refine ⟨?_, ?_, ?_, ?_, k, hk, hidnew⟩
    · rw [hitems2]
      exact List.count_eq_one_of_mem hnodup ho
    · rw [heq]
    · rw [heq]
    · rw [hidnew]
      cases hcase : (st.objs o).id with
      | none => simp
      | some hdl =>
        have hlt := hid o ho hdl hcase
        simp only [ne_eq, Option.some.injEq]
        omega
  · intro o ho
    rw [hout2 o (by rwa [hitems1]), hobjs1 o]
  · intro v hv
    rw [hv2 v hv, hst1]
    simp [hv]

/-- Witness for C6: `setCoords(0, 0, 10, 10)` on window 0 of the heap in which
object 0 is drawn with handle 0. -/
theorem C6_witness :
    (sampleAttachedState.wins 0).closed = false ∧
    (sampleAttachedState.wins 0).width ≠ 1 ∧
    (sampleAttachedState.wins 0).height ≠ 1 ∧
    (sampleAttachedState.wins 0).items.Nodup ∧
    (∀ o ∈ (sampleAttachedState.wins 0).items,
      (sampleAttachedState.objs o).window = some 0) ∧
    (∀ o ∈ (sampleAttachedState.wins 0).items, ∀ hdl,
      (sampleAttachedState.objs o).id = some hdl →
      hdl < (sampleAttachedState.wins 0).nextHandle) ∧
    (∃ st2,
      GraphWin.setCoords 0 0 0 10 10 sampleAttachedState = .ok st2 ∧
      (st2.wins 0).trans = some
        { xbase := 0
          ybase := 10
          xscale := (10 - 0) / (((sampleAttachedState.wins 0).width : ℚ) - 1)
          yscale := (10 - 0) / (((sampleAttachedState.wins 0).height : ℚ) - 1) } ∧
      (st2.wins 0).items = (sampleAttachedState.wins 0).items ∧
      (st2.wins 0).nextHandle =
        (sampleAttachedState.wins 0).nextHandle + (sampleAttachedState.wins 0).items.length ∧
      (∀ o ∈ (sampleAttachedState.wins 0).items,
        (st2.wins 0).items.count o = 1 ∧
        (st2.objs o).geom = (sampleAttachedState.objs o).geom ∧
        (st2.objs o).window = some 0 ∧
        (st2.objs o).id ≠ (sampleAttachedState.objs o).id ∧
        ∃ k, k < (sampleAttachedState.wins 0).items.length ∧
          (st2.objs o).id = some ((sampleAttachedState.wins 0).nextHandle + k)) ∧
      (∀ o, o ∉ (sampleAttachedState.wins 0).items →
        st2.objs o = sampleAttachedState.objs o) ∧
      (∀ v, v ≠ 0 → st2.wins v = sampleAttachedState.wins v)) :=
  ⟨rfl, by decide, by decide, by decide, by decide,
   by
     intro o ho hdl h
     have ho0 : o = 0 := by simpa [sampleAttachedState, sampleWin] using ho
     subst ho0
     simp [sampleAttachedState, sampleObj, sampleWin] at h ⊢
     omega,
   C6_setCoords_redraws_each_item_once sampleAttachedState 0 0 0 10 10
     rfl (by decide) (by decide) (by decide) (by decide)
     (by
       intro o ho hdl h
       have ho0 : o = 0 := by simpa [sampleAttachedState, sampleWin] using ho
       subst ho0
       simp [sampleAttachedState, sampleObj, sampleWin] at h ⊢
       omega)⟩
